import Mathlib

/-!
Verification of the qrpc server core (`server.go`): the wire-frame codec
(`readFrame`), the multiplex-aware read loop (`ReadFrame`), the connection
registry (`bindID` / `untrack`), server lifecycle (`OnShutdown`), the
request multiplexer (`ServeMux.Handle` / `ServeMux.ServeQRPC`) and the
keep-alive accept wrapper (`tcpKeepAliveListener.Accept`).

Machine integers are embedded as `Nat` (wire bytes are `Nat`s below 256;
fixed-width conversions are explicit `% 2 ^ w`); Go's signed `int` for
`maxFrameSize` is embedded as `Int`.  Fallible operations return
`Except` / `Option`.  Stateful code is embedded by explicit state passing;
loops built from `goto` are embedded with explicit fuel.
-/

namespace QRPC

/-! ## Association-list helpers

`sync.Map` and plain Go maps are embedded as association lists with
unique keys; `eraseKey` removes every pair with the key, which on a
unique-key list coincides with Go's map delete. -/

def lookupKey {α β : Type} [DecidableEq α] : List (α × β) → α → Option β
  | [], _ => none
  | (k, v) :: rest, key => if k = key then some v else lookupKey rest key

def eraseKey {α β : Type} [DecidableEq α] : List (α × β) → α → List (α × β)
  | [], _ => []
  | (k, v) :: rest, key =>
    if k = key then eraseKey rest key else (k, v) :: eraseKey rest key

def updateKey {α β : Type} [DecidableEq α] : List (α × β) → α → (β → β) → List (α × β)
  | [], _, _ => []
  | (k, v) :: rest, key, f =>
    if k = key then (k, f v) :: updateKey rest key f
    else (k, v) :: updateKey rest key f

theorem lookupKey_eraseKey {α β : Type} [DecidableEq α] (l : List (α × β)) (key : α) :
    lookupKey (eraseKey l key) key = none := by
  induction l with
  | nil => rfl
  | cons p rest ih =>
    obtain ⟨k, v⟩ := p
    by_cases h : k = key
    · simpa [eraseKey, h] using ih
    · simpa [eraseKey, lookupKey, h] using ih

theorem lookupKey_eraseKey_ne {α β : Type} [DecidableEq α] (l : List (α × β)) (key k : α)
    (h : k ≠ key) : lookupKey (eraseKey l key) k = lookupKey l k := by
  induction l with
  | nil => rfl
  | cons p rest ih =>
    obtain ⟨k1, v⟩ := p
    by_cases hp : k1 = key
    · simpa [eraseKey, hp, lookupKey, Ne.symm h] using ih
    · by_cases hk : k1 = k
      · simp [eraseKey, hp, lookupKey, hk, h]
      · simpa [eraseKey, lookupKey, hp, hk] using ih

theorem lookupKey_updateKey_self {α β : Type} [DecidableEq α] (l : List (α × β)) (key : α)
    (f : β → β) : lookupKey (updateKey l key f) key = (lookupKey l key).map f := by
  induction l with
  | nil => rfl
  | cons p rest ih =>
    obtain ⟨k, v⟩ := p
    by_cases h : k = key
    · simp [updateKey, lookupKey, h]
    · simpa [updateKey, lookupKey, h] using ih

theorem lookupKey_updateKey_ne {α β : Type} [DecidableEq α] (l : List (α × β)) (key k : α)
    (f : β → β) (h : k ≠ key) : lookupKey (updateKey l key f) k = lookupKey l k := by
  induction l with
  | nil => rfl
  | cons p rest ih =>
    obtain ⟨k1, v⟩ := p
    by_cases hp : k1 = key
    · simpa [updateKey, lookupKey, hp, Ne.symm h] using ih
    · by_cases hk : k1 = k
      · simp [updateKey, lookupKey, hp, hk, h]
      · simpa [updateKey, lookupKey, hp, hk] using ih

/-! ## Wire-frame codec (`readFrame`, `server.go` second unit) -/

/-- Big-endian decoding of a byte sequence, as `encoding/binary.BigEndian`
does for `Uint32` / `Uint64`: the first byte is the most significant. -/
def bigEndianDecode : List Nat → Nat
  | [] => 0
  | b :: bs => b * 256 ^ bs.length + bigEndianDecode bs

theorem bigEndianDecode_lt (bs : List Nat) (hb : ∀ b ∈ bs, b < 256) :
    bigEndianDecode bs < 256 ^ bs.length := by
  induction bs with
  | nil => simp [bigEndianDecode]
  | cons b rest ih =>
    have hb0 : b < 256 := hb b (by simp)
    have hrest : bigEndianDecode rest < 256 ^ rest.length :=
      ih (fun x hx => hb x (by simp [hx]))
    have h1 : b * 256 ^ rest.length + bigEndianDecode rest < (b + 1) * 256 ^ rest.length := by
      have := Nat.add_lt_add_left hrest (b * 256 ^ rest.length)
      calc b * 256 ^ rest.length + bigEndianDecode rest
          < b * 256 ^ rest.length + 256 ^ rest.length := this
        _ = (b + 1) * 256 ^ rest.length := by ring
    have h2 : (b + 1) * 256 ^ rest.length ≤ 256 * 256 ^ rest.length :=
      Nat.mul_le_mul_right _ hb0
    calc bigEndianDecode (b :: rest) = b * 256 ^ rest.length + bigEndianDecode rest := rfl
      _ < (b + 1) * 256 ^ rest.length := h1
      _ ≤ 256 * 256 ^ rest.length := h2
      _ = 256 ^ (rest.length + 1) := by ring
      _ = 256 ^ (b :: rest).length := by simp

/-- On-wire frame as produced by `defaultFrameReader.readFrame`. -/
structure Frame where
  RequestID : Nat
  Cmd : Nat
  Flags : Nat
  Payload : List Nat
deriving DecidableEq

/-- Errors the frame reader can produce.  `ShortRead` stands for the
underlying I/O error returned by `Reader.ReadBytes` when the wire has
fewer bytes than requested. -/
inductive ReadErr where
  | ShortRead
  | InvalidFrameSize
  | FrameTooLarge
deriving DecidableEq

/-- `Reader.ReadBytes` semantics over a byte list: read exactly `n` bytes
or fail.  Returns the bytes read and the remaining input. -/
def ReadBytes (input : List Nat) (n : Nat) : Option (List Nat × List Nat) :=
  if n ≤ input.length then some (input.take n, input.drop n) else none

/-- `defaultFrameReader.readFrame`: reads a 16-byte header, decodes
`size` (bytes 0-3), `requestID` (bytes 4-11) and `cmdAndFlags`
(bytes 12-15) big-endian, splits `cmdAndFlags` into `cmd` (low 24 bits)
and `flags` (high byte), applies the `maxFrameSize` check and then the
`size < 12` check, and finally reads `size - 12` payload bytes.
`uint32(dfr.maxFrameSize)` is `maxFrameSize.toNat % 2 ^ 32` (the guard
`0 < maxFrameSize` makes the conversion total).  The second component of
the result is the unread remainder of the wire. -/
def readFrame (input : List Nat) (maxFrameSize : Int) : Except ReadErr Frame × List Nat :=
  match ReadBytes input 16 with
  | none => (Except.error ReadErr.ShortRead, [])
  | some (header, rest) =>
    let size := bigEndianDecode (header.take 4)
    let requestID := bigEndianDecode ((header.drop 4).take 8)
    let cmdAndFlags := bigEndianDecode (header.drop 12)
    let cmd := cmdAndFlags % 2 ^ 24
    let flags := cmdAndFlags / 2 ^ 24
    if 0 < maxFrameSize ∧ size > maxFrameSize.toNat % 2 ^ 32 then
      (Except.error ReadErr.FrameTooLarge, rest)
    else if size < 12 then
      (Except.error ReadErr.InvalidFrameSize, rest)
    else
      match ReadBytes rest (size - 12) with
      | none => (Except.error ReadErr.ShortRead, rest)
      | some (payload, rest2) =>
        (Except.ok { RequestID := requestID, Cmd := cmd, Flags := flags,
                     Payload := payload }, rest2)

theorem take_sixteen_take_four (input : List Nat) :
    (input.take 16).take 4 = input.take 4 := by
  rw [List.take_take]
  norm_num

theorem take_sixteen_drop_four (input : List Nat) :
    ((input.take 16).drop 4).take 8 = (input.drop 4).take 8 := by
  rw [List.drop_take, List.take_take]
  norm_num

theorem take_sixteen_drop_twelve (input : List Nat) :
    (input.take 16).drop 12 = (input.drop 12).take 4 := by
  rw [List.drop_take]

/-- Claim C1: a 16-byte header is decoded big-endian as `size`
(bytes 0-3), `requestID` (bytes 4-11) and a packed `cmdAndFlags`
(bytes 12-15) with `flags` the high byte and `cmd` the low 24 bits; when
the size checks pass and the wire holds enough bytes, `readFrame`
succeeds with a payload of length exactly `size - 12` read from the wire
right after the header. -/
theorem readFrame_header_decoding (input : List Nat) (mfs : Int)
    (hL : 16 ≤ input.length)
    (hTL : ¬(0 < mfs ∧ bigEndianDecode (input.take 4) > mfs.toNat % 2 ^ 32))
    (hsz : 12 ≤ bigEndianDecode (input.take 4))
    (hpl : bigEndianDecode (input.take 4) - 12 ≤ input.length - 16) :
    readFrame input mfs =
      (Except.ok
        { RequestID := bigEndianDecode ((input.drop 4).take 8)
          Cmd := bigEndianDecode ((input.drop 12).take 4) % 2 ^ 24
          Flags := bigEndianDecode ((input.drop 12).take 4) / 2 ^ 24
          Payload := (input.drop 16).take (bigEndianDecode (input.take 4) - 12) },
        (input.drop 16).drop (bigEndianDecode (input.take 4) - 12))
    ∧ ((input.drop 16).take (bigEndianDecode (input.take 4) - 12)).length
        = bigEndianDecode (input.take 4) - 12 := by
  have hdrop : (input.drop 16).length = input.length - 16 := by
    simp [List.length_drop]
  have hpl2 : bigEndianDecode (input.take 4) - 12 ≤ (input.drop 16).length := by
    rw [hdrop]; exact hpl
  constructor
  · unfold readFrame ReadBytes
    rw [if_pos hL]
    simp only [take_sixteen_take_four, take_sixteen_drop_four, take_sixteen_drop_twelve]
    rw [if_neg hTL, if_neg (by omega : ¬ bigEndianDecode (input.take 4) < 12),
      if_pos hpl2]
  · rw [List.length_take]
    omega

/-- Claim C1 witness: the single-frame echo header of spec scenario A
(`size = 14`, `requestID = 1`, `flags = 0`, `cmd = 1`, payload `AB CD`). -/
theorem readFrame_header_decoding_witness :
    readFrame [0, 0, 0, 14, 0, 0, 0, 0, 0, 0, 0, 1, 0, 0, 0, 1, 0xAB, 0xCD] 0 =
      (Except.ok { RequestID := 1, Cmd := 1, Flags := 0, Payload := [0xAB, 0xCD] }, []) :=
  ((readFrame_header_decoding
      [0, 0, 0, 14, 0, 0, 0, 0, 0, 0, 0, 1, 0, 0, 0, 1, 0xAB, 0xCD] 0
      (by decide) (by decide) (by decide) (by decide)).1).trans rfl

/-- Claim C2 counterexample: the frame-too-large check runs before the
`size < 12` check, so with `maxFrameSize = 5` a header with `size = 8`
yields `FrameTooLarge`, not `InvalidFrameSize` as the claim requires
"regardless of the configured maxFrameSize". -/
theorem readFrame_small_size_counterexample :
    bigEndianDecode (([0, 0, 0, 8, 0, 0, 0, 0, 0, 0, 0, 0, 0, 0, 0, 0] : List Nat).take 4) = 8
    ∧ (readFrame [0, 0, 0, 8, 0, 0, 0, 0, 0, 0, 0, 0, 0, 0, 0, 0] 5).1
        = Except.error ReadErr.FrameTooLarge
    ∧ (readFrame [0, 0, 0, 8, 0, 0, 0, 0, 0, 0, 0, 0, 0, 0, 0, 0] 5).1
        ≠ Except.error ReadErr.InvalidFrameSize := by
  refine ⟨by decide, rfl, ?_⟩
  have hval : (readFrame [0, 0, 0, 8, 0, 0, 0, 0, 0, 0, 0, 0, 0, 0, 0, 0] 5).1
      = Except.error ReadErr.FrameTooLarge := rfl
  rw [hval]
  intro h
  injection h with h2
  exact ReadErr.noConfusion h2

/-- Claim C2 (amended): a frame whose decoded size field is below 12
makes `readFrame` fail after consuming only the 16 header bytes; the
error is `InvalidFrameSize` unless the `maxFrameSize` check fires first
(possible only when `0 < maxFrameSize < 12`), in which case it is
`FrameTooLarge`. -/
theorem readFrame_small_size (input : List Nat) (mfs : Int)
    (hL : 16 ≤ input.length)
    (hsz : bigEndianDecode (input.take 4) < 12) :
    (¬(0 < mfs ∧ bigEndianDecode (input.take 4) > mfs.toNat % 2 ^ 32) →
        readFrame input mfs = (Except.error ReadErr.InvalidFrameSize, input.drop 16))
    ∧ ((0 < mfs ∧ bigEndianDecode (input.take 4) > mfs.toNat % 2 ^ 32) →
        readFrame input mfs = (Except.error ReadErr.FrameTooLarge, input.drop 16)) := by
  constructor
  · intro hTL
    unfold readFrame ReadBytes
    rw [if_pos hL]
    simp only [take_sixteen_take_four]
    rw [if_neg hTL, if_pos hsz]
  · intro hTL
    unfold readFrame ReadBytes
    rw [if_pos hL]
    simp only [take_sixteen_take_four]
    rw [if_pos hTL]

/-- Claim C2 (amended) witness: with no size limit configured, a header
with `size = 8` yields `InvalidFrameSize` and only the header consumed. -/
theorem readFrame_small_size_witness :
    readFrame [0, 0, 0, 8, 0, 0, 0, 0, 0, 0, 0, 0, 0, 0, 0, 0] 0
      = (Except.error ReadErr.InvalidFrameSize, []) :=
  ((readFrame_small_size [0, 0, 0, 8, 0, 0, 0, 0, 0, 0, 0, 0, 0, 0, 0, 0] 0
      (by decide) (by decide)).1 (by decide)).trans rfl

/-- Claim C3: with `maxFrameSize = M > 0`, a frame whose decoded size
field exceeds `M` makes `readFrame` return `FrameTooLarge` with only the
16 header bytes consumed: no payload is read and none is allocated. -/
theorem readFrame_too_large (input : List Nat) (M : Int)
    (hb : ∀ b ∈ input, b < 256)
    (hL : 16 ≤ input.length)
    (hM : 0 < M)
    (hgt : (bigEndianDecode (input.take 4) : Int) > M) :
    readFrame input M = (Except.error ReadErr.FrameTooLarge, input.drop 16) := by
  have hsize : bigEndianDecode (input.take 4) < 2 ^ 32 := by
    have h1 : bigEndianDecode (input.take 4) < 256 ^ (input.take 4).length :=
      bigEndianDecode_lt _ (fun b hbmem => hb b (List.take_subset 4 input hbmem))
    have h2 : (input.take 4).length ≤ 4 := by
      simp [List.length_take]
    calc bigEndianDecode (input.take 4) < 256 ^ (input.take 4).length := h1
      _ ≤ 256 ^ 4 := Nat.pow_le_pow_right (by norm_num) h2
      _ = 2 ^ 32 := by norm_num
  have hcond : 0 < M ∧ bigEndianDecode (input.take 4) > M.toNat % 2 ^ 32 := by
    refine ⟨hM, ?_⟩
    have hMlt : M.toNat < 2 ^ 32 := by omega
    have : M.toNat % 2 ^ 32 = M.toNat := Nat.mod_eq_of_lt hMlt
    omega
  unfold readFrame ReadBytes
  rw [if_pos hL]
  simp only [take_sixteen_take_four]
  rw [if_pos hcond]

/-- Claim C3 witness: spec scenario D, `maxFrameSize = 1024` and a header
with `size = 4096`, yields `FrameTooLarge` with the payload unread. -/
theorem readFrame_too_large_witness :
    readFrame [0, 0, 16, 0, 0, 0, 0, 0, 0, 0, 0, 0, 0, 0, 0, 0] 1024
      = (Except.error ReadErr.FrameTooLarge, []) :=
  (readFrame_too_large [0, 0, 16, 0, 0, 0, 0, 0, 0, 0, 0, 0, 0, 0, 0, 0] 1024
      (by decide) (by decide) (by decide) (by decide)).trans rfl

/-! ## Stream table and the multiplex-aware `ReadFrame` loop

The `ConnStreams` / `Stream` implementation is not part of the provided
source (only its callers in `defaultFrameReader.ReadFrame` are), so the
stream operations are modelled from the spec, §3 "Stream"/"ConnStreams"
and §4.2.  `FrameFlag` bit positions are implementation-defined per the
spec, so the RST bit index is a parameter `rstBit` and a flag is tested
with `Nat.testBit`. -/

/-- Modelled from the spec: per-stream state for the missing `Stream`
type.  `reset` is the `Reset` state, `bound` records that `TryBind`
already succeeded (its at-most-once transition), `notified` that blocked
consumers were drained with the reset sentinel, `inFrames` the FIFO
inbound queue of continuation frames. -/
structure StreamInfo where
  reset : Bool
  bound : Bool
  notified : Bool
  inFrames : List Frame
deriving DecidableEq

/-- Per-connection stream table: `requestID → Stream`. -/
def ConnStreams : Type := List (Nat × StreamInfo)

/-- Modelled from the spec: `ConnStreams.GetStream` looks the stream up
by request id (the flags argument of the Go signature does not affect
the lookup). -/
def GetStream (cs : ConnStreams) (requestID : Nat) (_flags : Nat) : Option StreamInfo :=
  lookupKey cs requestID

/-- Modelled from the spec: `Stream.ResetByPeer` sets `Reset` and drains
pending consumers with a sentinel (idempotent); applied to the table at
`requestID`. -/
def ResetByPeer (cs : ConnStreams) (requestID : Nat) : ConnStreams :=
  updateKey cs requestID (fun s => { s with reset := true, notified := true })

/-- Modelled from the spec: `ConnStreams.CreateOrGetStream` returns the
existing stream (`loaded = true`) or inserts a fresh open one; it is
idempotent for the same id while the stream exists. -/
def CreateOrGetStream (cs : ConnStreams) (requestID : Nat) (_flags : Nat) :
    ConnStreams × Bool :=
  match lookupKey cs requestID with
  | some _ => (cs, true)
  | none =>
    ((requestID, { reset := false, bound := false, notified := false,
                   inFrames := [] }) :: cs, false)

/-- Modelled from the spec: `Stream.TryBind` is an at-most-once
transition that makes the given frame the stream's opening frame; it
succeeds exactly when the stream exists, is not yet bound and not
reset. -/
def TryBind (cs : ConnStreams) (requestID : Nat) (_f : Frame) : ConnStreams × Bool :=
  match lookupKey cs requestID with
  | none => (cs, false)
  | some s =>
    if s.bound || s.reset then (cs, false)
    else (updateKey cs requestID (fun t => { t with bound := true }), true)

/-- Modelled from the spec: `Stream.AddInFrame` enqueues a continuation
frame, failing when the stream is already reset (the caller then waits
on the stream's terminal signal). -/
def AddInFrame (cs : ConnStreams) (requestID : Nat) (f : Frame) :
    ConnStreams × Bool :=
  match lookupKey cs requestID with
  | none => (cs, false)
  | some s =>
    if s.reset then (cs, false)
    else (updateKey cs requestID (fun t => { t with inFrames := t.inFrames ++ [f] }), true)

/-- `defaultFrameReader.ReadFrame`: decode the next wire frame; on an
RST flag mark the stream (when present) as reset by peer and loop; else
create-or-get the stream, return the frame if `TryBind` succeeds, or
enqueue it as a continuation (waiting on `Done` when the enqueue fails)
and loop.  The `goto start` loop is embedded with fuel; `none` means the
fuel ran out. -/
def ReadFrame (rstBit : Nat) :
    Nat → List Nat → Int → ConnStreams →
    Option (Except ReadErr Frame × ConnStreams × List Nat)
  | 0, _, _, _ => none
  | fuel + 1, input, mfs, cs =>
    match readFrame input mfs with
    | (Except.error e, rest) => some (Except.error e, cs, rest)
    | (Except.ok f, rest) =>
      if Nat.testBit f.Flags rstBit then
        ReadFrame rstBit fuel rest mfs
          (match GetStream cs f.RequestID f.Flags with
            | some _ => ResetByPeer cs f.RequestID
            | none => cs)
      else
        match CreateOrGetStream cs f.RequestID f.Flags with
        | (cs1, _loaded) =>
          match TryBind cs1 f.RequestID f with
          | (cs2, true) => some (Except.ok f, cs2, rest)
          | (cs2, false) =>
            match AddInFrame cs2 f.RequestID f with
            | (cs3, _ok) => ReadFrame rstBit fuel rest mfs cs3

theorem ReadFrame_ok_not_rst (rstBit : Nat) :
    ∀ (fuel : Nat) (input : List Nat) (mfs : Int) (cs : ConnStreams)
      (f : Frame) (cs2 : ConnStreams) (rest : List Nat),
      ReadFrame rstBit fuel input mfs cs = some (Except.ok f, cs2, rest) →
      Nat.testBit f.Flags rstBit = false := by
  intro fuel
  induction fuel with
  | zero =>
    intro input mfs cs f cs2 rest h
    simp [ReadFrame] at h
  | succ n ih =>
    intro input mfs cs f cs2 rest h
    rw [ReadFrame] at h
    split at h
    · simp at h
    · rename_i f1 rest1 heq
      split at h
      · exact ih _ _ _ _ _ _ h
      · rename_i hrst
        split at h
        · rename_i cs1 loaded heq1
          split at h
          · rename_i cs3 heq2
            have hf : f1 = f := by
              simp at h
              exact h.1
            subst hf
            exact Bool.of_not_eq_true hrst
          · rename_i cs3 heq2
            split at h
            exact ih _ _ _ _ _ _ h

/-- Claim C4: for every decoded RST frame, `ReadFrame` marks the stream
(when one exists for its request id) as reset by peer — its blocked
consumers notified — and loops on the remaining wire; when no stream
exists the frame is dropped and the loop continues on an unchanged
table; and `ReadFrame` never returns a frame whose flags have the RST
bit set. -/
theorem ReadFrame_rst_handling (rstBit fuel : Nat) (input : List Nat) (mfs : Int)
    (cs : ConnStreams) (f : Frame) (rest : List Nat)
    (hread : readFrame input mfs = (Except.ok f, rest))
    (hrst : Nat.testBit f.Flags rstBit = true) :
    (GetStream cs f.RequestID f.Flags = none →
        ReadFrame rstBit (fuel + 1) input mfs cs = ReadFrame rstBit fuel rest mfs cs)
    ∧ (∀ s, GetStream cs f.RequestID f.Flags = some s →
        ReadFrame rstBit (fuel + 1) input mfs cs
          = ReadFrame rstBit fuel rest mfs (ResetByPeer cs f.RequestID)
        ∧ GetStream (ResetByPeer cs f.RequestID) f.RequestID f.Flags
            = some { s with reset := true, notified := true })
    ∧ (∀ (fuel2 : Nat) (input2 : List Nat) (cs2 : ConnStreams) (g : Frame)
          (cs3 : ConnStreams) (rest2 : List Nat),
        ReadFrame rstBit fuel2 input2 mfs cs2 = some (Except.ok g, cs3, rest2) →
        Nat.testBit g.Flags rstBit = false) := by
  refine ⟨?_, ?_, ?_⟩
  · intro hnone
    rw [ReadFrame, hread]
    simp [hrst, hnone]
  · intro s hs
    constructor
    · rw [ReadFrame, hread]
      simp [hrst, hs]
    · unfold GetStream ResetByPeer
      rw [lookupKey_updateKey_self]
      unfold GetStream at hs
      rw [hs]
      rfl
  · intro fuel2 input2 cs2 g cs3 rest2 h
    exact ReadFrame_ok_not_rst rstBit fuel2 input2 mfs cs2 g cs3 rest2 h

/-- Claim C4 witness: an RST frame (`size = 12`, `requestID = 7`,
`flags = 4` with the RST bit taken as bit 2) against a table holding an
open stream for id 7: the loop continues on the marked table and the
stream is now reset with consumers notified. -/
theorem ReadFrame_rst_handling_witness :
    ReadFrame 2 1 [0, 0, 0, 12, 0, 0, 0, 0, 0, 0, 0, 7, 4, 0, 0, 0] 0
        [(7, { reset := false, bound := false, notified := false, inFrames := [] })]
      = ReadFrame 2 0 [] 0
          (ResetByPeer
            [(7, { reset := false, bound := false, notified := false, inFrames := [] })] 7)
    ∧ GetStream
        (ResetByPeer
          [(7, { reset := false, bound := false, notified := false, inFrames := [] })] 7) 7 4
      = some { reset := true, bound := false, notified := true, inFrames := [] } :=
  (ReadFrame_rst_handling 2 0 [0, 0, 0, 12, 0, 0, 0, 0, 0, 0, 0, 7, 4, 0, 0, 0] 0
      [(7, { reset := false, bound := false, notified := false, inFrames := [] })]
      { RequestID := 7, Cmd := 0, Flags := 4, Payload := [] } [] rfl (by decide)).2.1
    { reset := false, bound := false, notified := false, inFrames := [] } rfl

/-! ## Connection registry: `Server.untrack` and `Server.bindID`

The `serveconn` struct lives outside the provided source (only its
fields and methods used in `server.go` appear), so its per-connection
state is modelled from the spec, §3 "ServeConn".  Connections are named
by an abstract id (`Nat`), standing for the Go pointer; the registry
state fixes one binding index `idx`, since `bindID`/`untrack` only touch
the maps of `sc.idx`. -/

/-- Modelled from the spec: the per-connection state of the missing
`serveconn` struct.  `id` is `sc.GetID()` (empty until bound),
`untrackFlag` the untrack-once flag (`sc.untrack`, CAS-guarded),
`chClosed` whether the signal channel `sc.untrackedCh` is closed, and
`socketClosed` whether `closeUntracked` has closed the socket. -/
structure Conn where
  id : String
  untrackFlag : Bool
  chClosed : Bool
  socketClosed : Bool
deriving DecidableEq

/-- Server registry state for one binding index: the connection states,
`id2Conn`, `activeConn`, the process-wide `kickOrder` counter, the
`OnKickCB` / `CounterMetric` configuration, the record of `OnKickCB`
invocations and the kickoff-metric count. -/
structure ServerState where
  conns : List (Nat × Conn)
  id2Conn : List (String × Nat)
  activeConn : List Nat
  kickOrder : Nat
  onKickConfigured : Bool
  kickCBInvoked : List Nat
  counterConfigured : Bool
  kickMetric : Nat
deriving DecidableEq

def updateConn (st : ServerState) (cid : Nat) (f : Conn → Conn) : ServerState :=
  { st with conns := updateKey st.conns cid f }

/-- `Server.untrack`: gated by a compare-and-swap on the untrack-once
flag; when it wins it deletes the connection's id mapping (if the id is
non-empty), removes it from `activeConn`, invokes `OnKickCB` with the
connection's writer when `kicked` and a callback is configured, and
closes the signal channel.  The Go function also returns the signal
channel; here the channel's state is `chClosed` of the connection. -/
def untrack (st : ServerState) (cid : Nat) (kicked : Bool) : ServerState × Bool :=
  match lookupKey st.conns cid with
  | none => (st, false)
  | some sc =>
    if sc.untrackFlag then (st, false)
    else
      let st1 := updateConn st cid (fun c => { c with untrackFlag := true })
      let st2 := if sc.id ≠ "" then { st1 with id2Conn := eraseKey st1.id2Conn sc.id }
                 else st1
      let st3 := { st2 with activeConn := st2.activeConn.filter (fun c => c ≠ cid) }
      let st4 := if kicked && st3.onKickConfigured then
                   { st3 with kickCBInvoked := st3.kickCBInvoked ++ [cid] }
                 else st3
      let st5 := updateConn st4 cid (fun c => { c with chClosed := true })
      (st5, true)

/-- Modelled from the spec: `serveconn.closeUntracked` closes the
socket, cancels the context, waits for the connection's activities and
drains its streams; in the registry state only the socket closure is
visible. -/
def closeUntracked (st : ServerState) (cid : Nat) : ServerState :=
  updateConn st cid (fun c => { c with socketClosed := true })

/-- `Server.bindID` with explicit fuel for the `goto check` loop
(`none` means the fuel ran out) and the accumulated `kick` named return.
Each iteration is source line for line: `LoadOrStore` on `id2Conn`; if
another connection holds the id, untrack it kicked (the Go code waits on
the completion channel when the CAS was lost — a no-op in the sequential
embedding), close it, bump the kickoff metric when a counter is
configured, increment the process-wide `kickOrder` and retry; on a
successful store return the current `kickOrder`. -/
def bindIDAux : Nat → ServerState → Nat → String → Bool →
    Option (ServerState × Bool × Nat)
  | 0, _, _, _, _ => none
  | fuel + 1, st, scid, id, kick =>
    match lookupKey st.id2Conn id with
    | none =>
      let st1 := { st with id2Conn := (id, scid) :: st.id2Conn }
      some (st1, kick, st1.kickOrder)
    | some vcid =>
      if vcid = scid then some (st, kick, 0)
      else
        let st1 := (untrack st vcid true).1
        let st2 := closeUntracked st1 vcid
        let st3 := if st2.counterConfigured then { st2 with kickMetric := st2.kickMetric + 1 }
                   else st2
        let st4 := { st3 with kickOrder := st3.kickOrder + 1 }
        bindIDAux fuel st4 scid id true

def bindID (fuel : Nat) (st : ServerState) (scid : Nat) (id : String) :
    Option (ServerState × Bool × Nat) :=
  bindIDAux fuel st scid id false

/-- Claim C6: the first `untrack` of a connection wins the CAS and runs
the cleanup body — it removes the id mapping when the id is non-empty
(and leaves `id2Conn` alone otherwise), removes the connection from
`activeConn`, invokes `OnKickCB` exactly when kicked and a callback is
configured, closes the signal channel — and returns `true`; any
subsequent call performs none of these effects and returns `false` with
the same, closed, signal channel. -/
theorem untrack_once (st : ServerState) (cid : Nat) (sc : Conn) (k1 k2 : Bool)
    (hc : lookupKey st.conns cid = some sc) (hflag : sc.untrackFlag = false) :
    (untrack st cid k1).2 = true
    ∧ lookupKey (untrack st cid k1).1.conns cid
        = some { sc with untrackFlag := true, chClosed := true }
    ∧ (sc.id ≠ "" → lookupKey (untrack st cid k1).1.id2Conn sc.id = none)
    ∧ (sc.id = "" → (untrack st cid k1).1.id2Conn = st.id2Conn)
    ∧ cid ∉ (untrack st cid k1).1.activeConn
    ∧ ((k1 && st.onKickConfigured) = true →
        (untrack st cid k1).1.kickCBInvoked = st.kickCBInvoked ++ [cid])
    ∧ ((k1 && st.onKickConfigured) = false →
        (untrack st cid k1).1.kickCBInvoked = st.kickCBInvoked)
    ∧ untrack (untrack st cid k1).1 cid k2 = ((untrack st cid k1).1, false) := by
  by_cases hid : sc.id = "" <;> by_cases hkc : (k1 && st.onKickConfigured) = true <;>
    refine ⟨?_, ?_, ?_, ?_, ?_, ?_, ?_, ?_⟩ <;>
      simp [untrack, updateConn, closeUntracked, hc, hflag, hid, hkc,
        lookupKey_updateKey_self, lookupKey_eraseKey, List.mem_filter]

/-- One-connection registry used to instantiate the untrack theorem. -/
def untrackWitnessState : ServerState :=
  { conns := [(1, { id := "u1", untrackFlag := false, chClosed := false,
                    socketClosed := false })]
    id2Conn := [("u1", 1)]
    activeConn := [1]
    kickOrder := 0
    onKickConfigured := true
    kickCBInvoked := []
    counterConfigured := false
    kickMetric := 0 }

/-- Claim C6 witness: a fresh connection `1` with id `u1` in a one-entry
registry; the first untrack cleans up and returns true, the second is a
no-op returning false with the channel already closed. -/
theorem untrack_once_witness :
    (untrack untrackWitnessState 1 true).2 = true
    ∧ lookupKey (untrack untrackWitnessState 1 true).1.conns 1
        = some { id := "u1", untrackFlag := true, chClosed := true, socketClosed := false }
    ∧ lookupKey (untrack untrackWitnessState 1 true).1.id2Conn "u1" = none
    ∧ 1 ∉ (untrack untrackWitnessState 1 true).1.activeConn
    ∧ (untrack untrackWitnessState 1 true).1.kickCBInvoked = [1]
    ∧ untrack (untrack untrackWitnessState 1 true).1 1 false
        = ((untrack untrackWitnessState 1 true).1, false) := by
  have h := untrack_once untrackWitnessState 1
    { id := "u1", untrackFlag := false, chClosed := false, socketClosed := false }
    true false rfl rfl
  exact ⟨h.1, h.2.1, h.2.2.1 (by decide), h.2.2.2.2.1,
    (h.2.2.2.2.2.1 rfl).trans (by decide), h.2.2.2.2.2.2.2⟩

/-- The registry state after `bindID(sc, id)` kicked the previous holder
`vcid` of `id` and published the binding: `vcid` is untracked (flag set,
channel closed), its socket closed, the id remapped to `scid`, the
kickoff callback and metric recorded when configured, and `kickOrder`
incremented. -/
def kickedState (st : ServerState) (vcid scid : Nat) (id : String) : ServerState :=
  { conns := updateKey (updateKey (updateKey st.conns vcid
        (fun c => { c with untrackFlag := true })) vcid
        (fun c => { c with chClosed := true })) vcid
        (fun c => { c with socketClosed := true })
    id2Conn := (id, scid) :: eraseKey st.id2Conn id
    activeConn := st.activeConn.filter (fun c => c ≠ vcid)
    kickOrder := st.kickOrder + 1
    onKickConfigured := st.onKickConfigured
    kickCBInvoked := if st.onKickConfigured then st.kickCBInvoked ++ [vcid]
                     else st.kickCBInvoked
    counterConfigured := st.counterConfigured
    kickMetric := if st.counterConfigured then st.kickMetric + 1 else st.kickMetric }

theorem bindID_run (st : ServerState) (scid vcid : Nat) (vsc : Conn) (fuel : Nat)
    (hlook : lookupKey st.id2Conn vsc.id = some vcid)
    (hne : vcid ≠ scid)
    (hvc : lookupKey st.conns vcid = some vsc)
    (hid : vsc.id ≠ "")
    (hflag : vsc.untrackFlag = false) :
    bindID (fuel + 2) st scid vsc.id
      = some (kickedState st vcid scid vsc.id, true, st.kickOrder + 1) := by
  by_cases hok : st.onKickConfigured = true <;>
    by_cases hcc : st.counterConfigured = true <;>
      simp [bindID, bindIDAux, hlook, hne, untrack, closeUntracked, updateConn, hvc,
        hflag, hid, lookupKey_eraseKey, kickedState, hok, hcc]

/-- Claim C5: when another connection `vcid` holds `id`, `bindID`
untracks it kicked, closes its socket, increments the process-wide
`kickOrder`, retries the insert, publishes `id → scid` in `id2Conn` and
returns the now-current `kickOrder`; the kicked connection is out of
`activeConn` and `OnKickCB` was invoked for it when configured. -/
theorem bindID_kick (st : ServerState) (scid vcid : Nat) (id : String) (vsc : Conn)
    (fuel : Nat)
    (hlook : lookupKey st.id2Conn id = some vcid)
    (hne : vcid ≠ scid)
    (hvc : lookupKey st.conns vcid = some vsc)
    (hvid : vsc.id = id)
    (hid : id ≠ "")
    (hflag : vsc.untrackFlag = false) :
    bindID (fuel + 2) st scid id
      = some (kickedState st vcid scid id, true, (kickedState st vcid scid id).kickOrder)
    ∧ lookupKey (kickedState st vcid scid id).id2Conn id = some scid
    ∧ (kickedState st vcid scid id).kickOrder = st.kickOrder + 1
    ∧ lookupKey (kickedState st vcid scid id).conns vcid
        = some { vsc with untrackFlag := true, chClosed := true, socketClosed := true }
    ∧ vcid ∉ (kickedState st vcid scid id).activeConn
    ∧ (st.onKickConfigured = true →
        (kickedState st vcid scid id).kickCBInvoked = st.kickCBInvoked ++ [vcid]) := by
  subst hvid
  refine ⟨?_, ?_, ?_, ?_, ?_, ?_⟩
  · simpa [kickedState] using bindID_run st scid vcid vsc fuel hlook hne hvc hid hflag
  · simp [kickedState, lookupKey]
  · simp [kickedState]
  · simp [kickedState, lookupKey_updateKey_self, hvc]
  · simp [kickedState, List.mem_filter]
  · intro h
    simp [kickedState, h]

/-- Two-connection registry used to instantiate the bind theorem:
connection `1` holds id `u1`, connection `2` is about to claim it. -/
def bindWitnessState : ServerState :=
  { conns := [(1, { id := "u1", untrackFlag := false, chClosed := false,
                    socketClosed := false }),
              (2, { id := "", untrackFlag := false, chClosed := false,
                    socketClosed := false })]
    id2Conn := [("u1", 1)]
    activeConn := [1, 2]
    kickOrder := 5
    onKickConfigured := true
    kickCBInvoked := []
    counterConfigured := false
    kickMetric := 0 }

/-- Claim C5 witness: connection `2` binds `u1` held by connection `1`
in `bindWitnessState`: the binding moves to `2`, connection `1` is
untracked and closed, and the returned kick order is the incremented
counter `6`. -/
theorem bindID_kick_witness :
    bindID 2 bindWitnessState 2 "u1"
      = some (kickedState bindWitnessState 1 2 "u1", true,
          (kickedState bindWitnessState 1 2 "u1").kickOrder)
    ∧ lookupKey (kickedState bindWitnessState 1 2 "u1").id2Conn "u1" = some 2
    ∧ (kickedState bindWitnessState 1 2 "u1").kickOrder = 6
    ∧ lookupKey (kickedState bindWitnessState 1 2 "u1").conns 1
        = some { id := "u1", untrackFlag := true, chClosed := true, socketClosed := true }
    ∧ 1 ∉ (kickedState bindWitnessState 1 2 "u1").activeConn
    ∧ (kickedState bindWitnessState 1 2 "u1").kickCBInvoked = [1] := by
  have h := bindID_kick bindWitnessState 2 1 "u1"
    { id := "u1", untrackFlag := false, chClosed := false, socketClosed := false }
    0 rfl (by decide) rfl rfl (by decide) rfl
  exact ⟨h.1, h.2.1, h.2.2.1.trans (by decide), h.2.2.2.1, h.2.2.2.2.1,
    (h.2.2.2.2.2 rfl).trans (by decide)⟩

/-! ## Server lifecycle: `Server.OnShutdown`

The state tracks the server mutex explicitly, because `sync.Mutex.Unlock`
on an unlocked mutex is a fatal Go runtime error; `OnShutdown` returns
the state reached together with that error when it occurs. -/

/-- The slice of `Server` state `OnShutdown` touches: the mutex, the
`done` flag, the registered callback list, plus the trace of callbacks
actually invoked. -/
structure LifecycleState where
  muLocked : Bool
  done : Bool
  shutdownFunc : List Nat
  invoked : List Nat
deriving DecidableEq

/-- Go runtime faults observable in this embedding. -/
inductive GoFault where
  | unlockOfUnlockedMutex
deriving DecidableEq

/-- `Server.OnShutdown(f)` as written: lock; if `done`, unlock and call
`f` — and then fall through (there is no early return) to append `f` to
`shutdownFunc` and unlock again, which on the `done` path unlocks an
already-unlocked mutex: a fatal runtime error.  The result carries the
state reached and the fault, if any. -/
def OnShutdown (st : LifecycleState) (f : Nat) : LifecycleState × Option GoFault :=
  let st1 := { st with muLocked := true }
  if st1.done then
    let st2 := { st1 with muLocked := false }
    let st3 := { st2 with invoked := st2.invoked ++ [f] }
    let st4 := { st3 with shutdownFunc := st3.shutdownFunc ++ [f] }
    if st4.muLocked then ({ st4 with muLocked := false }, none)
    else (st4, some GoFault.unlockOfUnlockedMutex)
  else
    let st4 := { st1 with shutdownFunc := st1.shutdownFunc ++ [f] }
    ({ st4 with muLocked := false }, none)

/-- Claim C7 (code bug): calling `OnShutdown(f)` after shutdown does
invoke `f` immediately and does append it to the callback list, but it
does not return normally: the missing early return makes the function
unlock the already-unlocked mutex, a fatal runtime error. -/
theorem OnShutdown_after_done (st : LifecycleState) (f : Nat)
    (hdone : st.done = true) :
    (OnShutdown st f).1.invoked = st.invoked ++ [f]
    ∧ (OnShutdown st f).1.shutdownFunc = st.shutdownFunc ++ [f]
    ∧ (OnShutdown st f).2 = some GoFault.unlockOfUnlockedMutex := by
  refine ⟨?_, ?_, ?_⟩ <;> simp [OnShutdown, hdone]

/-- Claim C7 witness: on a shut-down server with empty callback list,
`OnShutdown 3` invokes and appends callback `3` and then hits the fatal
double unlock. -/
theorem OnShutdown_after_done_witness :
    (OnShutdown { muLocked := false, done := true, shutdownFunc := [], invoked := [] } 3).1.invoked
      = [] ++ [3]
    ∧ (OnShutdown { muLocked := false, done := true, shutdownFunc := [], invoked := [] } 3).1.shutdownFunc
      = [] ++ [3]
    ∧ (OnShutdown { muLocked := false, done := true, shutdownFunc := [], invoked := [] } 3).2
      = some GoFault.unlockOfUnlockedMutex :=
  OnShutdown_after_done { muLocked := false, done := true, shutdownFunc := [], invoked := [] } 3 rfl

/-! ## `ServeMux`: `Handle` and `ServeQRPC`

`Handler` values are opaque to the mux; they are embedded as an
inductive so that the middleware wrapper is visible.  A Go `nil` handler
argument is `Option.none`. -/

/-- Handlers as the mux sees them: either an opaque user handler or one
wrapped with middleware. -/
inductive Handler where
  | base (id : Nat)
  | withMW (h : Handler) (middleware : List Nat)
deriving DecidableEq

/-- Modelled from the spec: `HandlerWithMW` (outside the provided
source) wraps a handler with the given middleware chain. -/
def HandlerWithMW (h : Handler) (middleware : List Nat) : Handler :=
  Handler.withMW h middleware

/-- Panics `ServeMux.Handle` can raise. -/
inductive HandlePanic where
  | nilHandler
  | multipleRegistrations
deriving DecidableEq

/-- `ServeMux.Handle`: panics on a nil handler, then on a duplicate
registration for `cmd`; otherwise stores the middleware-wrapped handler
(the nil-map initialization of the Go code is implicit in the list
embedding). -/
def Handle (m : List (Nat × Handler)) (cmd : Nat) (handler : Option Handler)
    (middleware : List Nat) : Except HandlePanic (List (Nat × Handler)) :=
  match handler with
  | none => Except.error HandlePanic.nilHandler
  | some h =>
    match lookupKey m cmd with
    | some _ => Except.error HandlePanic.multipleRegistrations
    | none => Except.ok ((cmd, HandlerWithMW h middleware) :: m)

/-- Claim C8: `Handle` panics exactly when the handler is nil or a
handler already exists for `cmd` — aborting at registration time — and
otherwise registers the middleware-wrapped handler so that a later
lookup of `cmd` finds it (and no other cmd's entry changes). -/
theorem Handle_registration (m : List (Nat × Handler)) (cmd : Nat)
    (handler : Option Handler) (middleware : List Nat) :
    (handler = none → Handle m cmd handler middleware = Except.error HandlePanic.nilHandler)
    ∧ (∀ h, handler = some h → (lookupKey m cmd).isSome →
        Handle m cmd handler middleware = Except.error HandlePanic.multipleRegistrations)
    ∧ (∀ h, handler = some h → lookupKey m cmd = none →
        Handle m cmd handler middleware
          = Except.ok ((cmd, HandlerWithMW h middleware) :: m)
        ∧ lookupKey ((cmd, HandlerWithMW h middleware) :: m) cmd
            = some (HandlerWithMW h middleware)
        ∧ ∀ c, c ≠ cmd →
            lookupKey ((cmd, HandlerWithMW h middleware) :: m) c = lookupKey m c) := by
  refine ⟨?_, ?_, ?_⟩
  · intro hn
    simp [Handle, hn]
  · intro h hh hex
    obtain ⟨h0, hl⟩ := Option.isSome_iff_exists.mp hex
    simp [Handle, hh, hl]
  · intro h hh hnone
    refine ⟨by simp [Handle, hh, hnone], by simp [lookupKey], ?_⟩
    intro c hc
    simp [lookupKey, Ne.symm hc]

/-- Claim C8 witness: registering handler `7` for cmd `1` in an empty
mux succeeds and a lookup of cmd `1` finds the wrapped handler; a second
registration for cmd `1` then panics with the duplicate-registration
error, and a nil registration panics. -/
theorem Handle_registration_witness :
    Handle [] 1 (some (Handler.base 7)) [] = Except.ok [(1, HandlerWithMW (Handler.base 7) [])]
    ∧ lookupKey [(1, HandlerWithMW (Handler.base 7) [])] 1
        = some (HandlerWithMW (Handler.base 7) [])
    ∧ Handle [(1, HandlerWithMW (Handler.base 7) [])] 1 (some (Handler.base 8)) []
        = Except.error HandlePanic.multipleRegistrations
    ∧ Handle [] 2 none [] = Except.error HandlePanic.nilHandler := by
  have h1 := (Handle_registration [] 1 (some (Handler.base 7)) []).2.2 (Handler.base 7) rfl rfl
  have h2 := (Handle_registration [(1, HandlerWithMW (Handler.base 7) [])] 1
    (some (Handler.base 8)) []).2.1 (Handler.base 8) rfl (by decide)
  have h3 := (Handle_registration [] 2 none []).1 rfl
  exact ⟨h1.1, h1.2.1, h2, h3⟩

/-! ## Accept path: `tcpKeepAliveListener.Accept` -/

/-- An accepted socket as the keep-alive wrapper sees it: whether the
`TCPConn` type assertion holds, and whether the two keep-alive
configuration calls would return an error. -/
structure NetConn where
  isTCPConn : Bool
  setKeepAliveErr : Bool
  setKeepAlivePeriodErr : Bool
deriving DecidableEq

/-- Errors on the accept path. -/
inductive AcceptErr where
  | listenerErr
  | listenerAcceptReturnType
deriving DecidableEq

/-- `tcpKeepAliveListener.Accept`: propagate an inner accept error; fail
with `ErrListenerAcceptReturnType` when the connection is not a
`TCPConn`; otherwise call `SetKeepAlive(true)` and
`SetKeepAlivePeriod(20s)` — both return values are discarded by the
source — and return the connection as accepted. -/
def tcpKeepAliveAccept (inner : Except AcceptErr NetConn) : Except AcceptErr NetConn :=
  match inner with
  | Except.error e => Except.error e
  | Except.ok c =>
    if !c.isTCPConn then Except.error AcceptErr.listenerAcceptReturnType
    else
      let _kaResult := c.setKeepAliveErr
      let _kapResult := c.setKeepAlivePeriodErr
      Except.ok c

/-- The `Serve` accept loop spawns a serve goroutine — which tracks the
connection via `newConn` into `activeConn` and serves it — exactly for
the sockets `Accept` returns without error. -/
def servesAccepted (result : Except AcceptErr NetConn) : Bool :=
  match result with
  | Except.ok _ => true
  | Except.error _ => false

/-- A TCP socket on which both keep-alive configuration calls fail. -/
def keepAliveFailConn : NetConn :=
  { isTCPConn := true, setKeepAliveErr := true, setKeepAlivePeriodErr := true }

/-- Claim C9 counterexample: a TCP socket on which both keep-alive
configuration calls fail is still returned as successfully accepted and
is then tracked and served — the accept path does not discard it. -/
theorem tcpKeepAliveAccept_counterexample :
    keepAliveFailConn.setKeepAliveErr = true
    ∧ keepAliveFailConn.setKeepAlivePeriodErr = true
    ∧ tcpKeepAliveAccept (Except.ok keepAliveFailConn) = Except.ok keepAliveFailConn
    ∧ servesAccepted (tcpKeepAliveAccept (Except.ok keepAliveFailConn)) = true := by
  exact ⟨rfl, rfl, rfl, rfl⟩

/-- Claim C9 (amended): keep-alive configuration failures are ignored —
`Accept` returns the socket as successfully accepted (and it is then
tracked and served) whether or not keep-alive setup fails; a socket is
discarded only when the inner accept fails or when the `TCPConn` type
assertion fails, with `ErrListenerAcceptReturnType`. -/
theorem tcpKeepAliveAccept_spec (c : NetConn) (e : AcceptErr) :
    tcpKeepAliveAccept (Except.ok c)
      = (if c.isTCPConn then Except.ok c
         else Except.error AcceptErr.listenerAcceptReturnType)
    ∧ tcpKeepAliveAccept (Except.error e) = Except.error e
    ∧ servesAccepted (tcpKeepAliveAccept (Except.ok c)) = c.isTCPConn := by
  refine ⟨?_, rfl, ?_⟩ <;> cases h : c.isTCPConn <;> simp [tcpKeepAliveAccept, h, servesAccepted]

/-! ## `ServeMux.ServeQRPC` -/

/-- The request frame as the mux sees it.  Modelled from the spec:
`RequestFrame.Close` (outside the provided source) releases the frame's
stream; here it sets `closed`. -/
structure RequestFrame where
  Cmd : Nat
  closed : Bool
deriving DecidableEq

/-- `ServeMux.ServeQRPC`: take the read lock, look the handler up by
`r.Cmd`; when absent, log, close the request frame and return — without
releasing the read lock, which the embedding tracks in `rlockDepth` —
invoking no handler; when present, release the lock and dispatch to the
handler.  Returns the (unchanged) handler table, the lock depth, the
frame and the handler invoked, if any. -/
def ServeQRPC (m : List (Nat × Handler)) (rlockDepth : Nat) (r : RequestFrame) :
    List (Nat × Handler) × Nat × RequestFrame × Option Handler :=
  let rl1 := rlockDepth + 1
  match lookupKey m r.Cmd with
  | none => (m, rl1, { r with closed := true }, none)
  | some h => (m, rl1 - 1, r, some h)

/-- Claim C10: a request frame whose cmd has no registered handler is
closed (releasing its stream), no handler is invoked, `ServeQRPC`
returns, and the handler table is unchanged. -/
theorem ServeQRPC_unregistered (m : List (Nat × Handler)) (rlockDepth : Nat)
    (r : RequestFrame) (hnone : lookupKey m r.Cmd = none) :
    ServeQRPC m rlockDepth r = (m, rlockDepth + 1, { r with closed := true }, none)
    ∧ (ServeQRPC m rlockDepth r).2.2.1.closed = true
    ∧ (ServeQRPC m rlockDepth r).2.2.2 = none
    ∧ (ServeQRPC m rlockDepth r).1 = m := by
  refine ⟨?_, ?_, ?_, ?_⟩ <;> simp [ServeQRPC, hnone]

/-- Claim C10 witness: a frame for cmd `9` against a mux holding only
cmd `1` is closed and dispatched to no handler; the table is intact. -/
theorem ServeQRPC_unregistered_witness :
    ServeQRPC [(1, Handler.base 7)] 0 { Cmd := 9, closed := false }
      = ([(1, Handler.base 7)], 1, { Cmd := 9, closed := true }, none) :=
  (ServeQRPC_unregistered [(1, Handler.base 7)] 0 { Cmd := 9, closed := false }
    (by decide)).1

end QRPC
